import Mathlib

/-!
Verification of the cache-strategy core of the query-cache simulation
(`Group9_SourceProgram.cpp`).

The embedding below models the C++ classes `CacheStrategy`, `LIRSCache`,
`TinyFLUCache`, `S3FIFOCache` and `DatabaseSystem` as pure Lean functions.
Modelling choices:
* `std::unordered_map<std::string, std::string>` becomes an association
  list `List (String × String)`; a freshly inserted key is appended at the
  end, so `cache.begin()` corresponds to the head of the list.
* `std::deque<std::string>` becomes `List String` (front = head).
* `std::unordered_map<std::string, bool>` becomes `List (String × Bool)`;
  `operator[]` on an absent key yields the default `false`.  (The C++
  `operator[]` also default-inserts the entry; since such an entry always
  holds the default value `false` and is only ever read back through
  `operator[]`, omitting the insertion is observationally equivalent.)
* Printed victim lines ("... Evicted: v") are modelled by the
  `Option String` returned by `evictKey`; the printed hit/miss branch of
  `process_query` is modelled by the `Bool` component of its result.
* `ExecutionEngine::execute` sleeps and returns `"Result for " + plan`
  deterministically; the sleep is dropped, the string is kept.
-/

/-- Lookup in the result map (`cache.find(q) != cache.end()`). -/
def mapContains (m : List (String × String)) (k : String) : Bool :=
  match m with
  | [] => false
  | (k', _) :: rest => if k' = k then true else mapContains rest k

/-- Read through `cache[q]` (`operator[]`'s default value is `""`). -/
def mapFind (m : List (String × String)) (k : String) : String :=
  match m with
  | [] => ""
  | (k', v) :: rest => if k' = k then v else mapFind rest k

/-- `cache[q] = r`: assign in place when present, append when absent. -/
def mapSet (m : List (String × String)) (k v : String) : List (String × String) :=
  match m with
  | [] => [(k, v)]
  | (k', v') :: rest => if k' = k then (k, v) :: rest else (k', v') :: mapSet rest k v

/-- `cache.erase(q)`: remove the entry keyed `q` (keys are unique). -/
def mapErase (m : List (String × String)) (k : String) : List (String × String) :=
  match m with
  | [] => []
  | (k', v) :: rest => if k' = k then rest else (k', v) :: mapErase rest k

/-- Read of `in_high[q]` (default `false` when absent). -/
def boolLookup (m : List (String × Bool)) (k : String) : Bool :=
  match m with
  | [] => false
  | (k', b) :: rest => if k' = k then b else boolLookup rest k

/-- Write of `in_high[q] = b`. -/
def boolSet (m : List (String × Bool)) (k : String) (b : Bool) : List (String × Bool) :=
  match m with
  | [] => [(k, b)]
  | (k', b') :: rest => if k' = k then (k, b) :: rest else (k', b') :: boolSet rest k b

/-- `in_high.erase(q)`. -/
def boolErase (m : List (String × Bool)) (k : String) : List (String × Bool) :=
  match m with
  | [] => []
  | (k', b) :: rest => if k' = k then rest else (k', b) :: boolErase rest k

/-- `deque.erase(std::remove(...))`: remove every occurrence of `q`. -/
def removeAll (q : String) : List String → List String
  | [] => []
  | x :: rest => if x = q then removeAll q rest else x :: removeAll q rest

/-- `deque.erase(it)` after `std::find`: remove the first occurrence of `q`. -/
def eraseFirst (q : String) : List String → List String
  | [] => []
  | x :: rest => if x = q then rest else x :: eraseFirst q rest

/-- `std::find(...) != end()` on a deque of keys. -/
def containsKey (q : String) : List String → Bool
  | [] => false
  | x :: rest => if x = q then true else containsKey q rest

/-- The per-policy private state: `LIRSCache`'s two lists plus `in_high`,
`TinyFLUCache`'s single queue, `S3FIFOCache`'s three queues. -/
inductive Policy where
  | lirs (high_interference_list low_interference_list : List String)
      (in_high : List (String × Bool))
  | tinyflu (query_queue : List String)
  | s3fifo (short_term medium_term long_term : List String)
deriving DecidableEq

/-- The fields of the base class `CacheStrategy` plus the active policy's
private state. -/
structure CacheStrategy where
  capacity : Nat
  cache : List (String × String)
  cache_hits : Nat
  cache_misses : Nat
  policy : Policy
deriving DecidableEq

/-- `admit(q)` of the active policy (named `enqueueKey` here). -/
def enqueueKey (s : CacheStrategy) (q : String) : CacheStrategy :=
  match s.policy with
  | .lirs high low ih =>
      { s with policy := .lirs (high ++ [q]) low (boolSet ih q true) }
  | .tinyflu queue => { s with policy := .tinyflu (queue ++ [q]) }
  | .s3fifo st mt lt => { s with policy := .s3fifo (st ++ [q]) mt lt }

/-- `update(q)` of the active policy. -/
def updateKey (s : CacheStrategy) (q : String) : CacheStrategy :=
  match s.policy with
  | .lirs high low ih =>
      if boolLookup ih q then
        { s with policy := .lirs (removeAll q high ++ [q]) low ih }
      else
        { s with policy := .lirs (high ++ [q]) (removeAll q low) (boolSet ih q true) }
  | .tinyflu queue => { s with policy := .tinyflu (removeAll q queue ++ [q]) }
  | .s3fifo st mt lt =>
      if containsKey q st then
        { s with policy := .s3fifo (eraseFirst q st) (mt ++ [q]) lt }
      else if containsKey q mt then
        { s with policy := .s3fifo st (eraseFirst q mt) (lt ++ [q]) }
      else if containsKey q lt then
        { s with policy := .s3fifo st mt (eraseFirst q lt ++ [q]) }
      else s

/-- Victim selection of `LIRSCache::evict`: head of the high list, else head
of the low list, else `cache.begin()->first`, else the sentinel `""`.
Returns the victim together with the two lists after the `pop_front`. -/
def lirsVictim : List String → List String → List (String × String) →
    String × List String × List String
  | v :: hs, low, _ => (v, hs, low)
  | [], v :: ls, _ => (v, [], ls)
  | [], [], (k, _) :: _ => (k, [], [])
  | [], [], [] => ("", [], [])

/-- Victim selection of `S3FIFOCache::evict` over the three queues with the
`cache.begin()` fallback and the `""` sentinel. -/
def s3Victim : List String → List String → List String → List (String × String) →
    String × List String × List String × List String
  | v :: xs, mt, lt, _ => (v, xs, mt, lt)
  | [], v :: xs, lt, _ => (v, [], xs, lt)
  | [], [], v :: xs, _ => (v, [], [], xs)
  | [], [], [], (k, _) :: _ => (k, [], [], [])
  | [], [], [], [] => ("", [], [], [])

/-- `evict()` of the active policy.  The `Option String` result is the key
actually erased from the store (also the key the C++ code prints); `none`
when nothing was erased.  For `lirs` and `s3fifo` the erase is guarded by
`if (!victim.empty())`, so an empty-string victim is popped from its list
but NOT erased from the store; `tinyflu` erases unconditionally and has no
store fallback at all. -/
def evictKey (s : CacheStrategy) : CacheStrategy × Option String :=
  match s.policy with
  | .lirs high low ih =>
      let r := lirsVictim high low s.cache
      if r.1 = "" then ({ s with policy := .lirs r.2.1 r.2.2 ih }, none)
      else
        ({ s with cache := mapErase s.cache r.1,
                  policy := .lirs r.2.1 r.2.2 (boolErase ih r.1) }, some r.1)
  | .tinyflu queue =>
      match queue with
      | [] => (s, none)
      | v :: rest =>
          ({ s with cache := mapErase s.cache v, policy := .tinyflu rest }, some v)
  | .s3fifo st mt lt =>
      let r := s3Victim st mt lt s.cache
      if r.1 = "" then ({ s with policy := .s3fifo r.2.1 r.2.2.1 r.2.2.2 }, none)
      else
        ({ s with cache := mapErase s.cache r.1,
                  policy := .s3fifo r.2.1 r.2.2.1 r.2.2.2 }, some r.1)

/-- `CacheStrategy::get`: on a present key, bump `cache_hits`, run the
policy `update`, and return `cache[query]`; otherwise bump `cache_misses`
and return `""`. -/
def getQ (s : CacheStrategy) (query : String) : String × CacheStrategy :=
  if mapContains s.cache query then
    let s2 := updateKey { s with cache_hits := s.cache_hits + 1 } query
    (mapFind s2.cache query, s2)
  else
    ("", { s with cache_misses := s.cache_misses + 1 })

/-- `CacheStrategy::put`: on a present key only `update` runs (the value is
not replaced); otherwise `evict` runs when `cache.size() >= capacity`, then
the entry is inserted and `admit` runs.  The `Option String` result is the
key the eviction erased, if any. -/
def putQ (s : CacheStrategy) (query result : String) : CacheStrategy × Option String :=
  if mapContains s.cache query then
    (updateKey s query, none)
  else
    let er := if s.capacity ≤ s.cache.length then evictKey s else (s, none)
    (enqueueKey { er.1 with cache := mapSet er.1.cache query result } query, er.2)

/-- `new LIRSCache(5)`. -/
def mkLIRS : CacheStrategy := ⟨5, [], 0, 0, .lirs [] [] []⟩

/-- `new TinyFLUCache(5)`. -/
def mkTinyFLU : CacheStrategy := ⟨5, [], 0, 0, .tinyflu []⟩

/-- `new S3FIFOCache(5)`. -/
def mkS3FIFO : CacheStrategy := ⟨5, [], 0, 0, .s3fifo [] [] []⟩

/-- Drop leading `' '` characters (only U+0020, as in
`find_first_not_of(' ')`). -/
def dropSpaces : List Char → List Char
  | [] => []
  | c :: rest => if c = ' ' then dropSpaces rest else c :: rest

/-- `DatabaseSystem::trim`: strip leading and trailing space characters. -/
def trim (s : String) : String :=
  String.mk ((dropSpaces ((dropSpaces s.data).reverse)).reverse)

/-- `::tolower` in the C locale on one character: ASCII A-Z map to a-z. -/
def lowerChar (c : Char) : Char :=
  if 'A' ≤ c ∧ c ≤ 'Z' then Char.ofNat (c.toNat + 32) else c

/-- `std::transform(..., ::tolower)` over a whole string. -/
def lowerStr (s : String) : String := String.mk (s.data.map lowerChar)

/-- The `DatabaseSystem` state relevant to the cache core: the active
`cache_strategy`. -/
structure DatabaseSystem where
  cache_strategy : CacheStrategy
deriving DecidableEq

/-- `DatabaseSystem()` constructs an `LIRSCache(5)`. -/
def initialSystem : DatabaseSystem := ⟨mkLIRS⟩

/-- `DatabaseSystem::set_cache_strategy`: the old strategy object is deleted
unconditionally; the trimmed, lower-cased name selects the fresh strategy.
The `Bool` result models the "Invalid caching strategy" notice. -/
def set_cache_strategy (db : DatabaseSystem) (strategy : String) :
    DatabaseSystem × Bool :=
  let strat := lowerStr (trim strategy)
  if strat = "lirs" then (⟨mkLIRS⟩, false)
  else if strat = "tinyflu" then (⟨mkTinyFLU⟩, false)
  else if strat = "s3fifo" ∨ strat = "s3-fifo" then (⟨mkS3FIFO⟩, false)
  else (⟨mkLIRS⟩, true)

/-- `DatabaseSystem::process_query`.  Note that the cache is consulted and
filled with the RAW `query`, not with `parsed_query`; the lower-cased text
only feeds the optimizer plan.  The `Bool` component models which of
"Cache hit!" / "Cache miss! Executing query..." was printed. -/
def process_query (db : DatabaseSystem) (query : String) :
    String × Bool × DatabaseSystem :=
  let parsed_query := lowerStr query
  let plan := "OptimizedPlan(" ++ parsed_query ++ ")"
  let gr := getQ db.cache_strategy query
  if gr.1 ≠ "" then (gr.1, true, ⟨gr.2⟩)
  else
    let result := "Result for " ++ plan
    (result, false, ⟨(putQ gr.2 query result).1⟩)

/-- All policy-owned sequences are empty. -/
def allSeqsEmpty : Policy → Bool
  | .lirs high low _ => high.isEmpty && low.isEmpty
  | .tinyflu queue => queue.isEmpty
  | .s3fifo st mt lt => st.isEmpty && mt.isEmpty && lt.isEmpty

/-- Insert five (key, value) pairs in order through `put`. -/
def insert5 (s : CacheStrategy) (k1 v1 k2 v2 k3 v3 k4 v4 k5 v5 : String) :
    CacheStrategy :=
  (putQ (putQ (putQ (putQ (putQ s k1 v1).1 k2 v2).1 k3 v3).1 k4 v4).1 k5 v5).1

/-!  General frame lemmas about the policy hooks. -/

/-- `update` never touches the stored key/value map. -/
theorem updateKey_cache (s : CacheStrategy) (q : String) :
    (updateKey s q).cache = s.cache := by
  cases s with
  | mk cap cache hits misses pol =>
    cases pol <;> simp only [updateKey] <;> split_ifs <;> rfl

/-- `update` never touches the hit counter. -/
theorem updateKey_cache_hits (s : CacheStrategy) (q : String) :
    (updateKey s q).cache_hits = s.cache_hits := by
  cases s with
  | mk cap cache hits misses pol =>
    cases pol <;> simp only [updateKey] <;> split_ifs <;> rfl

/-- `update` never touches the miss counter. -/
theorem updateKey_cache_misses (s : CacheStrategy) (q : String) :
    (updateKey s q).cache_misses = s.cache_misses := by
  cases s with
  | mk cap cache hits misses pol =>
    cases pol <;> simp only [updateKey] <;> split_ifs <;> rfl

/-- `admit` never touches the stored key/value map. -/
theorem enqueueKey_cache (s : CacheStrategy) (q : String) :
    (enqueueKey s q).cache = s.cache := by
  cases s with
  | mk cap cache hits misses pol => cases pol <;> rfl

/-- Reading back the key just written by `cache[q] = r` yields `r`. -/
theorem mapFind_mapSet (m : List (String × String)) (q r : String) :
    mapFind (mapSet m q r) q = r := by
  induction m with
  | nil => simp [mapSet, mapFind]
  | cons p rest ih =>
    obtain ⟨k', v'⟩ := p
    by_cases h : k' = q
    · simp [mapSet, mapFind, h]
    · simp [mapSet, mapFind, h, ih]

/-!  Claim theorems. -/

/-- The six-`put` run under `LIRSCache(5)` that starts with the
empty-string key: `""` is chosen as the eviction victim, but the
`if (!victim.empty())` guard skips the store erase. -/
def overflowRun : CacheStrategy :=
  (putQ (insert5 mkLIRS "" "v0" "k1" "v1" "k2" "v2" "k3" "v3" "k4" "v4") "k5" "v5").1

/-- Claim C1: the spec demands `size(store) ≤ capacity` after every `put`,
including runs involving the empty-string key.  The code violates this:
after admitting the empty-string key and five further distinct keys to
`LIRSCache(5)`, the store holds 6 entries against capacity 5, because the
eviction of the victim `""` skips `cache.erase`.  This theorem exhibits the
failing run. -/
theorem capacity_overflow_on_empty_key :
    overflowRun.capacity = 5 ∧ overflowRun.cache.length = 6 := by decide

/-- Claim C3 (counterexample): `TinyFLUCache::evict` has no store fallback.
Invoked with an empty queue and the non-empty store `[("a", "v")]`, it
removes nothing and erases no key, refuting the claim that every policy
falls back to removing an arbitrary store key. -/
theorem tinyflu_evict_no_fallback :
    evictKey ⟨5, [("a", "v")], 0, 0, Policy.tinyflu []⟩
      = (⟨5, [("a", "v")], 0, 0, Policy.tinyflu []⟩, none) := rfl

/-- Claim C3 (amended): when all internal sequences are empty and the store
is non-empty, `LIRSCache::evict` and `S3FIFOCache::evict` fall back to
erasing the store's first key (provided that key is not the empty string,
which the `!victim.empty()` guard would skip), while `TinyFLUCache::evict`
does nothing at all. -/
theorem evict_fallback_amended (cap hits misses : Nat) (k v : String)
    (rest : List (String × String)) (ih : List (String × Bool)) (hk : k ≠ "") :
    evictKey ⟨cap, (k, v) :: rest, hits, misses, Policy.lirs [] [] ih⟩
      = (⟨cap, rest, hits, misses, Policy.lirs [] [] (boolErase ih k)⟩, some k) ∧
    evictKey ⟨cap, (k, v) :: rest, hits, misses, Policy.s3fifo [] [] []⟩
      = (⟨cap, rest, hits, misses, Policy.s3fifo [] [] []⟩, some k) ∧
    evictKey ⟨cap, (k, v) :: rest, hits, misses, Policy.tinyflu []⟩
      = (⟨cap, (k, v) :: rest, hits, misses, Policy.tinyflu []⟩, none) := by
  refine ⟨?_, ?_, rfl⟩ <;> simp [evictKey, lirsVictim, s3Victim, mapErase, hk]

/-- Claim C3 (witness): the amended fallback behavior at a concrete state. -/
theorem evict_fallback_check :
    evictKey ⟨5, [("a", "v")], 0, 0, Policy.lirs [] [] [("a", true)]⟩
      = (⟨5, [], 0, 0, Policy.lirs [] [] (boolErase [("a", true)] "a")⟩, some "a") :=
  (evict_fallback_amended 5 0 0 "a" "v" [] [("a", true)] (by decide)).1

/-- Claim C7: `set_cache_strategy` deletes the active strategy and installs
a freshly constructed one, whatever the prior state and whatever the name:
the new strategy has zero hits, zero misses, an empty store, and empty
policy sequences. -/
theorem strategy_swap_resets (db : DatabaseSystem) (name : String) :
    (set_cache_strategy db name).1.cache_strategy.cache_hits = 0 ∧
    (set_cache_strategy db name).1.cache_strategy.cache_misses = 0 ∧
    (set_cache_strategy db name).1.cache_strategy.cache = [] ∧
    allSeqsEmpty (set_cache_strategy db name).1.cache_strategy.policy = true := by
  simp only [set_cache_strategy]
  split_ifs <;> decide

/-- Claim C10: `get` on an absent key bumps the miss counter by one and
changes nothing else — the mapping, the hit counter, the capacity, and the
policy sequences are untouched (`update` is not invoked on a miss). -/
theorem miss_frame (s : CacheStrategy) (q : String)
    (h : mapContains s.cache q = false) :
    getQ s q = ("", { s with cache_misses := s.cache_misses + 1 }) := by
  simp [getQ, h]

/-- Claim C10 (witness): a miss on the fresh LIRS strategy. -/
theorem miss_frame_check :
    getQ mkLIRS "x" = ("", { mkLIRS with cache_misses := mkLIRS.cache_misses + 1 }) :=
  miss_frame mkLIRS "x" (by decide)

/-- Claim C8: on a key present in the store, `get` returns the stored
value unchanged and bumps the hit counter by exactly one, and `put` with
any new value is routed to `update`, leaving the whole mapping and both
counters unchanged and evicting nothing — the value bound to a key is
never replaced after creation. -/
theorem hit_preserves_value (s : CacheStrategy) (q v' : String)
    (h : mapContains s.cache q = true) :
    (getQ s q).1 = mapFind s.cache q ∧
    (getQ s q).2.cache = s.cache ∧
    (getQ s q).2.cache_hits = s.cache_hits + 1 ∧
    (getQ s q).2.cache_misses = s.cache_misses ∧
    (putQ s q v').1.cache = s.cache ∧
    (putQ s q v').1.cache_hits = s.cache_hits ∧
    (putQ s q v').1.cache_misses = s.cache_misses ∧
    (putQ s q v').2 = none := by
  simp [getQ, putQ, h, updateKey_cache, updateKey_cache_hits, updateKey_cache_misses]

/-- Claim C8 (witness): hits on a store holding `("k", "val")`. -/
theorem hit_preserves_value_check :
    (getQ (putQ mkLIRS "k" "val").1 "k").1 = mapFind (putQ mkLIRS "k" "val").1.cache "k" ∧
    (getQ (putQ mkLIRS "k" "val").1 "k").2.cache = (putQ mkLIRS "k" "val").1.cache ∧
    (getQ (putQ mkLIRS "k" "val").1 "k").2.cache_hits = (putQ mkLIRS "k" "val").1.cache_hits + 1 ∧
    (getQ (putQ mkLIRS "k" "val").1 "k").2.cache_misses = (putQ mkLIRS "k" "val").1.cache_misses ∧
    (putQ (putQ mkLIRS "k" "val").1 "k" "other").1.cache = (putQ mkLIRS "k" "val").1.cache ∧
    (putQ (putQ mkLIRS "k" "val").1 "k" "other").1.cache_hits = (putQ mkLIRS "k" "val").1.cache_hits ∧
    (putQ (putQ mkLIRS "k" "val").1 "k" "other").1.cache_misses = (putQ mkLIRS "k" "val").1.cache_misses ∧
    (putQ (putQ mkLIRS "k" "val").1 "k" "other").2 = none :=
  hit_preserves_value (putQ mkLIRS "k" "val").1 "k" "other" (by decide)

/-- Claim C9: when a key is present in the store with the empty-string
value, `process_query` takes the miss branch and re-executes the query —
the empty return is indistinguishable from absence at the pipeline
boundary — and the empty value survives (the re-`put` is routed to
`update`). -/
theorem empty_value_treated_as_miss (db : DatabaseSystem) (q : String)
    (hpres : mapContains db.cache_strategy.cache q = true)
    (hval : mapFind db.cache_strategy.cache q = "") :
    (process_query db q).2.1 = false ∧
    (process_query db q).1 = "Result for " ++ ("OptimizedPlan(" ++ lowerStr q ++ ")") ∧
    mapFind (process_query db q).2.2.cache_strategy.cache q = "" := by
  have hc : (updateKey { db.cache_strategy with
      cache_hits := db.cache_strategy.cache_hits + 1 } q).cache
      = db.cache_strategy.cache := updateKey_cache _ q
  simp [process_query, getQ, putQ, hpres, hc, hval, updateKey_cache]

/-- Claim C9 (witness): a store holding `("k", "")` makes `process_query`
re-execute. -/
theorem empty_value_treated_as_miss_check :
    (process_query ⟨(putQ mkLIRS "k" "").1⟩ "k").2.1 = false ∧
    (process_query ⟨(putQ mkLIRS "k" "").1⟩ "k").1
      = "Result for " ++ ("OptimizedPlan(" ++ lowerStr "k" ++ ")") ∧
    mapFind (process_query ⟨(putQ mkLIRS "k" "").1⟩ "k").2.2.cache_strategy.cache "k" = "" :=
  empty_value_treated_as_miss ⟨(putQ mkLIRS "k" "").1⟩ "k" (by decide) (by decide)

/-- Claim C2 (counterexample): with the store holding the normalized key
`"a"` (non-empty value), submitting `"A"` — whose normalization is exactly
`"a"` — still takes the miss branch and creates a separate entry under the
raw key `"A"`: the cache key is NOT the normalized query text, and
case-differing submissions do not address the same entry. -/
theorem normalized_key_claim_false :
    lowerStr "A" = "a" ∧
    mapContains (putQ mkLIRS "a" "v").1.cache "a" = true ∧
    (process_query ⟨(putQ mkLIRS "a" "v").1⟩ "A").2.1 = false ∧
    mapContains (process_query ⟨(putQ mkLIRS "a" "v").1⟩ "A").2.2.cache_strategy.cache "A"
      = true := by decide

/-- Claim C2 (amended): `process_query` looks up and stores under the RAW
query text; the lower-cased normalization only feeds the optimizer plan.
A raw key absent from the store always misses and is then stored raw with
the executed result; a raw key present with a non-empty value hits and
returns that value. -/
theorem raw_key_pipeline (db : DatabaseSystem) (q : String) :
    (mapContains db.cache_strategy.cache q = false →
      (process_query db q).2.1 = false ∧
      mapFind (process_query db q).2.2.cache_strategy.cache q
        = "Result for " ++ ("OptimizedPlan(" ++ lowerStr q ++ ")")) ∧
    (mapContains db.cache_strategy.cache q = true →
      mapFind db.cache_strategy.cache q ≠ "" →
      (process_query db q).2.1 = true ∧
      (process_query db q).1 = mapFind db.cache_strategy.cache q) := by
  constructor
  · intro h
    simp only [process_query, getQ, h]
    simp only [Bool.false_eq_true, if_false, ne_eq, not_true_eq_false, if_neg,
      not_false_eq_true]
    refine ⟨trivial, ?_⟩
    simp only [putQ]
    split
    · next hmem => simp [h] at hmem
    · split <;> simp [enqueueKey_cache, mapFind_mapSet]
  · intro hpres hne
    have hc : (updateKey { db.cache_strategy with
        cache_hits := db.cache_strategy.cache_hits + 1 } q).cache
        = db.cache_strategy.cache := updateKey_cache _ q
    simp [process_query, getQ, hpres, hc, hne]

/-- Claim C2 (witness): both amended branches at concrete inputs — a miss
on a fresh strategy for `"A"`, and a hit for `"a"` once `("a", "v")` is
stored. -/
theorem raw_key_pipeline_check :
    ((process_query ⟨mkLIRS⟩ "A").2.1 = false ∧
      mapFind (process_query ⟨mkLIRS⟩ "A").2.2.cache_strategy.cache "A"
        = "Result for " ++ ("OptimizedPlan(" ++ lowerStr "A" ++ ")")) ∧
    ((process_query ⟨(putQ mkLIRS "a" "v").1⟩ "a").2.1 = true ∧
      (process_query ⟨(putQ mkLIRS "a" "v").1⟩ "a").1
        = mapFind (putQ mkLIRS "a" "v").1.cache "a") :=
  ⟨(raw_key_pipeline ⟨mkLIRS⟩ "A").1 (by decide),
   (raw_key_pipeline ⟨(putQ mkLIRS "a" "v").1⟩ "a").2 (by decide) (by decide)⟩

/-- Claim C4 (counterexample): `DatabaseSystem::trim` strips only space
characters (U+0020), not all whitespace.  The input `"\ttinyflu"` —
`"tinyflu"` after removing surrounding whitespace and case-folding — is
NOT recognized: the invalid-selection notice fires and the default
RecencySegmented (LIRS) policy is installed instead of PlainFIFO. -/
theorem tab_strategy_not_recognized :
    (set_cache_strategy ⟨mkLIRS⟩ "\ttinyflu").2 = true ∧
    (set_cache_strategy ⟨mkLIRS⟩ "\ttinyflu").1.cache_strategy.policy
      = Policy.lirs [] [] [] := by decide

/-- Claim C4 (amended): if the input, after removing surrounding SPACE
characters only (tabs and other whitespace are not removed) and
case-folding, equals `"lirs"`, `"tinyflu"`, `"s3fifo"` or `"s3-fifo"`,
the corresponding policy is installed without a notice; any other input
produces the invalid-selection notice and installs the default
RecencySegmented (LIRS) policy. -/
theorem strategy_selection_spaces (db : DatabaseSystem) (s : String) :
    (lowerStr (trim s) = "lirs" → set_cache_strategy db s = (⟨mkLIRS⟩, false)) ∧
    (lowerStr (trim s) = "tinyflu" → set_cache_strategy db s = (⟨mkTinyFLU⟩, false)) ∧
    (lowerStr (trim s) = "s3fifo" → set_cache_strategy db s = (⟨mkS3FIFO⟩, false)) ∧
    (lowerStr (trim s) = "s3-fifo" → set_cache_strategy db s = (⟨mkS3FIFO⟩, false)) ∧
    (lowerStr (trim s) ≠ "lirs" → lowerStr (trim s) ≠ "tinyflu" →
      lowerStr (trim s) ≠ "s3fifo" → lowerStr (trim s) ≠ "s3-fifo" →
      set_cache_strategy db s = (⟨mkLIRS⟩, true)) := by
  refine ⟨fun h => ?_, fun h => ?_, fun h => ?_, fun h => ?_,
    fun h1 h2 h3 h4 => ?_⟩ <;> simp only [set_cache_strategy]
  · rw [h]; decide
  · rw [h]; decide
  · rw [h]; decide
  · rw [h]; decide
  · simp [h1, h2, h3, h4]

/-- Claim C4 (witness): a space-padded, mixed-case name is recognized. -/
theorem strategy_selection_check :
    set_cache_strategy ⟨mkLIRS⟩ "  TinyFLU " = (⟨mkTinyFLU⟩, false) :=
  (strategy_selection_spaces ⟨mkLIRS⟩ "  TinyFLU ").2.1 (by decide)

/-- Claim C5: for each of the three policies at capacity 5, inserting six
distinct non-empty keys in order with no intervening hits makes the sixth
`put` evict exactly the first key: with no `update` calls all three
policies degenerate to a FIFO queue.  The resulting store holds exactly
the entries for K2..K6 in admission order. -/
theorem fifo_degeneration (k1 k2 k3 k4 k5 k6 v1 v2 v3 v4 v5 v6 : String)
    (h1 : k1 ≠ "") (h2 : k2 ≠ "") (h3 : k3 ≠ "") (h4 : k4 ≠ "")
    (h5 : k5 ≠ "") (h6 : k6 ≠ "")
    (d12 : k1 ≠ k2) (d13 : k1 ≠ k3) (d14 : k1 ≠ k4) (d15 : k1 ≠ k5) (d16 : k1 ≠ k6)
    (d23 : k2 ≠ k3) (d24 : k2 ≠ k4) (d25 : k2 ≠ k5) (d26 : k2 ≠ k6)
    (d34 : k3 ≠ k4) (d35 : k3 ≠ k5) (d36 : k3 ≠ k6)
    (d45 : k4 ≠ k5) (d46 : k4 ≠ k6) (d56 : k5 ≠ k6) :
    (putQ (insert5 mkLIRS k1 v1 k2 v2 k3 v3 k4 v4 k5 v5) k6 v6).2 = some k1 ∧
    (putQ (insert5 mkLIRS k1 v1 k2 v2 k3 v3 k4 v4 k5 v5) k6 v6).1.cache
      = [(k2, v2), (k3, v3), (k4, v4), (k5, v5), (k6, v6)] ∧
    (putQ (insert5 mkTinyFLU k1 v1 k2 v2 k3 v3 k4 v4 k5 v5) k6 v6).2 = some k1 ∧
    (putQ (insert5 mkTinyFLU k1 v1 k2 v2 k3 v3 k4 v4 k5 v5) k6 v6).1.cache
      = [(k2, v2), (k3, v3), (k4, v4), (k5, v5), (k6, v6)] ∧
    (putQ (insert5 mkS3FIFO k1 v1 k2 v2 k3 v3 k4 v4 k5 v5) k6 v6).2 = some k1 ∧
    (putQ (insert5 mkS3FIFO k1 v1 k2 v2 k3 v3 k4 v4 k5 v5) k6 v6).1.cache
      = [(k2, v2), (k3, v3), (k4, v4), (k5, v5), (k6, v6)] := by
  simp [insert5, putQ, getQ, updateKey, enqueueKey, evictKey, lirsVictim, s3Victim,
    mapContains, mapSet, mapErase, mapFind, boolSet, boolErase,
    mkLIRS, mkTinyFLU, mkS3FIFO,
    h1, h2, h3, h4, h5, h6,
    d12, d13, d14, d15, d16, d23, d24, d25, d26, d34, d35, d36, d45, d46, d56]

/-- Claim C5 (witness): the LIRS run at six concrete keys. -/
theorem fifo_degeneration_check :
    (putQ (insert5 mkLIRS "q1" "v1" "q2" "v2" "q3" "v3" "q4" "v4" "q5" "v5")
      "q6" "v6").2 = some "q1" :=
  (fifo_degeneration "q1" "q2" "q3" "q4" "q5" "q6" "v1" "v2" "v3" "v4" "v5" "v6"
    (by decide) (by decide) (by decide) (by decide) (by decide) (by decide)
    (by decide) (by decide) (by decide) (by decide) (by decide)
    (by decide) (by decide) (by decide) (by decide)
    (by decide) (by decide) (by decide)
    (by decide) (by decide) (by decide)).1

/-- State after five distinct fresh inserts into `LIRSCache(5)`. -/
theorem insert5_lirs (k1 k2 k3 k4 k5 v1 v2 v3 v4 v5 : String)
    (d12 : k1 ≠ k2) (d13 : k1 ≠ k3) (d14 : k1 ≠ k4) (d15 : k1 ≠ k5)
    (d23 : k2 ≠ k3) (d24 : k2 ≠ k4) (d25 : k2 ≠ k5)
    (d34 : k3 ≠ k4) (d35 : k3 ≠ k5) (d45 : k4 ≠ k5) :
    insert5 mkLIRS k1 v1 k2 v2 k3 v3 k4 v4 k5 v5
      = ⟨5, [(k1, v1), (k2, v2), (k3, v3), (k4, v4), (k5, v5)], 0, 0,
          Policy.lirs [k1, k2, k3, k4, k5] []
            [(k1, true), (k2, true), (k3, true), (k4, true), (k5, true)]⟩ := by
  simp [insert5, putQ, getQ, updateKey, enqueueKey, evictKey, lirsVictim,
    mapContains, mapSet, boolSet, mkLIRS,
    d12, d13, d14, d15, d23, d24, d25, d34, d35, d45]

/-- State after five distinct fresh inserts into `TinyFLUCache(5)`. -/
theorem insert5_tinyflu (k1 k2 k3 k4 k5 v1 v2 v3 v4 v5 : String)
    (d12 : k1 ≠ k2) (d13 : k1 ≠ k3) (d14 : k1 ≠ k4) (d15 : k1 ≠ k5)
    (d23 : k2 ≠ k3) (d24 : k2 ≠ k4) (d25 : k2 ≠ k5)
    (d34 : k3 ≠ k4) (d35 : k3 ≠ k5) (d45 : k4 ≠ k5) :
    insert5 mkTinyFLU k1 v1 k2 v2 k3 v3 k4 v4 k5 v5
      = ⟨5, [(k1, v1), (k2, v2), (k3, v3), (k4, v4), (k5, v5)], 0, 0,
          Policy.tinyflu [k1, k2, k3, k4, k5]⟩ := by
  simp [insert5, putQ, getQ, updateKey, enqueueKey, evictKey,
    mapContains, mapSet, mkTinyFLU,
    d12, d13, d14, d15, d23, d24, d25, d34, d35, d45]

/-- State after five distinct fresh inserts into `S3FIFOCache(5)`. -/
theorem insert5_s3fifo (k1 k2 k3 k4 k5 v1 v2 v3 v4 v5 : String)
    (d12 : k1 ≠ k2) (d13 : k1 ≠ k3) (d14 : k1 ≠ k4) (d15 : k1 ≠ k5)
    (d23 : k2 ≠ k3) (d24 : k2 ≠ k4) (d25 : k2 ≠ k5)
    (d34 : k3 ≠ k4) (d35 : k3 ≠ k5) (d45 : k4 ≠ k5) :
    insert5 mkS3FIFO k1 v1 k2 v2 k3 v3 k4 v4 k5 v5
      = ⟨5, [(k1, v1), (k2, v2), (k3, v3), (k4, v4), (k5, v5)], 0, 0,
          Policy.s3fifo [k1, k2, k3, k4, k5] [] []⟩ := by
  simp [insert5, putQ, getQ, updateKey, enqueueKey, evictKey, s3Victim,
    mapContains, mapSet, mkS3FIFO,
    d12, d13, d14, d15, d23, d24, d25, d34, d35, d45]

/-- Claim C6 (counterexample): the claim states no non-emptiness condition
on the keys, but with K2 the empty string the LIRS run evicts NOTHING when
K6 is inserted: the promoted-away victim `""` is popped from
`high_interference_list`, the `!victim.empty()` guard skips `cache.erase`,
and the store grows to 6 entries instead of losing K2. -/
theorem empty_second_key_not_evicted :
    (putQ (getQ (insert5 mkLIRS "k1" "v1" "" "v2" "k3" "v3" "k4" "v4" "k5" "v5")
        "k1").2 "k6" "v6").2 = none ∧
    (putQ (getQ (insert5 mkLIRS "k1" "v1" "" "v2" "k3" "v3" "k4" "v4" "k5" "v5")
        "k1").2 "k6" "v6").1.cache.length = 6 := by decide

/-- Claim C6 (amended): for each policy at capacity 5, after inserting five
distinct keys K1..K5, a hit on K1 promotes it — to the tail of
`query_queue` for TinyFLU, to the tail of `high_interference_list` for
LIRS, from `short_term` to `medium_term` for S3-FIFO — and the insertion
of a new key K6 evicts exactly K2: unconditionally for TinyFLU, and
provided K2 is not the empty string for LIRS and S3-FIFO (whose
`!victim.empty()` guard otherwise skips the store erase, evicting
nothing). -/
theorem hit_then_evict_second (k1 k2 k3 k4 k5 k6 v1 v2 v3 v4 v5 v6 : String)
    (d12 : k1 ≠ k2) (d13 : k1 ≠ k3) (d14 : k1 ≠ k4) (d15 : k1 ≠ k5) (d16 : k1 ≠ k6)
    (d23 : k2 ≠ k3) (d24 : k2 ≠ k4) (d25 : k2 ≠ k5) (d26 : k2 ≠ k6)
    (d34 : k3 ≠ k4) (d35 : k3 ≠ k5) (d36 : k3 ≠ k6)
    (d45 : k4 ≠ k5) (d46 : k4 ≠ k6) (d56 : k5 ≠ k6) :
    (getQ (insert5 mkTinyFLU k1 v1 k2 v2 k3 v3 k4 v4 k5 v5) k1).2.policy
      = Policy.tinyflu [k2, k3, k4, k5, k1] ∧
    (putQ (getQ (insert5 mkTinyFLU k1 v1 k2 v2 k3 v3 k4 v4 k5 v5) k1).2 k6 v6).2
      = some k2 ∧
    (getQ (insert5 mkLIRS k1 v1 k2 v2 k3 v3 k4 v4 k5 v5) k1).2.policy
      = Policy.lirs [k2, k3, k4, k5, k1] []
          [(k1, true), (k2, true), (k3, true), (k4, true), (k5, true)] ∧
    (getQ (insert5 mkS3FIFO k1 v1 k2 v2 k3 v3 k4 v4 k5 v5) k1).2.policy
      = Policy.s3fifo [k2, k3, k4, k5] [k1] [] ∧
    (k2 ≠ "" →
      (putQ (getQ (insert5 mkLIRS k1 v1 k2 v2 k3 v3 k4 v4 k5 v5) k1).2 k6 v6).2
        = some k2 ∧
      (putQ (getQ (insert5 mkS3FIFO k1 v1 k2 v2 k3 v3 k4 v4 k5 v5) k1).2 k6 v6).2
        = some k2) := by
  rw [insert5_lirs k1 k2 k3 k4 k5 v1 v2 v3 v4 v5
        d12 d13 d14 d15 d23 d24 d25 d34 d35 d45,
      insert5_tinyflu k1 k2 k3 k4 k5 v1 v2 v3 v4 v5
        d12 d13 d14 d15 d23 d24 d25 d34 d35 d45,
      insert5_s3fifo k1 k2 k3 k4 k5 v1 v2 v3 v4 v5
        d12 d13 d14 d15 d23 d24 d25 d34 d35 d45]
  refine ⟨?_, ?_, ?_, ?_, fun hk2 => ⟨?_, ?_⟩⟩ <;>
    simp [*, putQ, getQ, updateKey, enqueueKey, evictKey, lirsVictim, s3Victim,
      mapContains, mapSet, mapErase, mapFind, boolSet, boolErase, boolLookup,
      removeAll, eraseFirst, containsKey,
      Ne.symm d12, Ne.symm d13, Ne.symm d14, Ne.symm d15]

/-- Claim C6 (witness): the LIRS run at six concrete keys, exercising the
distinctness hypotheses and the non-empty-K2 proviso. -/
theorem hit_then_evict_second_check :
    (putQ (getQ (insert5 mkLIRS "q1" "v1" "q2" "v2" "q3" "v3" "q4" "v4" "q5" "v5")
      "q1").2 "q6" "v6").2 = some "q2" :=
  ((hit_then_evict_second "q1" "q2" "q3" "q4" "q5" "q6" "v1" "v2" "v3" "v4" "v5" "v6"
    (by decide) (by decide) (by decide) (by decide) (by decide)
    (by decide) (by decide) (by decide) (by decide)
    (by decide) (by decide) (by decide)
    (by decide) (by decide) (by decide)).2.2.2.2 (by decide)).1
